import Mathlib

/-!
Verification of the scroll/mouse-driven parallax demo (src/src/index.js).

The demo wires two spring-animated values (`top`, `mouse`) into per-layer
visual parameters via fixed interpolation curves. Scalars are modelled as
rationals (the interpolation formulas are exact rational arithmetic); the
star-field trigonometry is modelled over the reals.
-/

namespace ThreeDemo

/-- Modelled from the spec: the animation library's two-point interpolation
`value.interpolate([x0, x1], [y0, y1])` (the library itself is not part of
this repository's sources). Between the stops the output is the linear
interpolant; the spec states the output is clamped at the ends of the
input range. This is the open-interval linear segment. -/
def linInterp (x0 x1 y0 y1 t : ℚ) : ℚ :=
  y0 + (t - x0) * (y1 - y0) / (x1 - x0)

/-- Modelled from the spec: two-stop clamped piecewise-linear interpolation,
as used by `top.interpolate([a, b], [c, d])` in the scene. -/
def interp2 (x0 x1 y0 y1 t : ℚ) : ℚ :=
  if t ≤ x0 then y0
  else if x1 ≤ t then y1
  else linInterp x0 x1 y0 y1 t

/-- Modelled from the spec: four-stop clamped piecewise-linear interpolation,
as used by the background color ramp. -/
def interp4 (x0 x1 x2 x3 y0 y1 y2 y3 t : ℚ) : ℚ :=
  if t ≤ x0 then y0
  else if t ≤ x1 then linInterp x0 x1 y0 y1 t
  else if t ≤ x2 then linInterp x1 x2 y1 y2 t
  else if t ≤ x3 then linInterp x2 x3 y2 y3 t
  else y3

/-- `Effects` receives `top.interpolate([0, 150], [1, 0])` as its glitch
intensity factor (src/src/index.js line 122). -/
def glitchFactor (t : ℚ) : ℚ := interp2 0 150 1 0 t

/-- The first `Text` layer's opacity: `top.interpolate([0, 200], [1, 0])`
(src/src/index.js line 140). -/
def textOpacity (t : ℚ) : ℚ := interp2 0 200 1 0 t

/-- Each `Image` layer's opacity: `top.interpolate([0, 500], [0, 1])`
(src/src/index.js line 132). -/
def imageOpacity (t : ℚ) : ℚ := interp2 0 500 0 1 t

/-- Red channel of the background ramp; stops `[0, m*0.25, m*0.5, m]` onto
the red components of `#27282F`, `#247BA0`, `#70C1B3`, `#e8f3f1`
(src/src/index.js line 124). `m` is `scrollMax = size.height * 4.5`. -/
def rampR (m t : ℚ) : ℚ := interp4 0 (m * 0.25) (m * 0.5) m 39 36 112 232 t

/-- Green channel of the background ramp (components 40, 123, 193, 243). -/
def rampG (m t : ℚ) : ℚ := interp4 0 (m * 0.25) (m * 0.5) m 40 123 193 243 t

/-- Blue channel of the background ramp (components 47, 160, 179, 241). -/
def rampB (m t : ℚ) : ℚ := interp4 0 (m * 0.25) (m * 0.5) m 47 160 179 241 t

/-- The background color as an RGB triple:
`top.interpolate([0, scrollMax*0.25, scrollMax*0.5, scrollMax],
['#27282F', '#247BA0', '#70C1B3', '#e8f3f1'])`. `#27282F = (39,40,47)`,
`#247BA0 = (36,123,160)`, `#70C1B3 = (112,193,179)`, `#e8f3f1 = (232,243,241)`. -/
def colorRamp (m t : ℚ) : ℚ × ℚ × ℚ := (rampR m t, rampG m t, rampB m t)

/-- The `Image` mesh scale: `factor.interpolate(f => [scale * f, scale * f, 1])`
(src/src/index.js line 26). -/
def imageScale (scale f : ℚ) : ℚ × ℚ × ℚ := (scale * f, scale * f, 1)

/-- `onHover` handler of `Image`: `() => setHover(true)` (line 22). -/
def hover (_hovered : Bool) : Bool := true

/-- `onUnhover` handler of `Image`: `() => setHover(false)` (line 23). -/
def unhover (_hovered : Bool) : Bool := false

/-- The hover spring target: `useSpring({ factor: hovered ? 1.25 : 1 })`
(src/src/index.js line 24). -/
def hoverFactorTarget (hovered : Bool) : ℚ := if hovered then 1.25 else 1

/-- Modelled from the spec: the spring integrator (from the animation
library, not in this repository's sources) converges asymptotically to its
target, so the settled value of a spring equals its target. -/
def settledSpring (target : ℚ) : ℚ := target

/-- One image descriptor from the static data list: `[url, x, y, factor, z, scale]`
(src/src/index.js line 127). The data file itself is not in the sources, so
`url` is an opaque token. -/
structure ImageDesc where
  url : ℕ
  x : ℚ
  y : ℚ
  factor : ℚ
  z : ℚ
  scale : ℚ
deriving DecidableEq

/-- All per-layer parameters the `Scene` component derives from the animated
pair `(top, mouse)` (src/src/index.js lines 116-148). -/
structure SceneParams where
  spotPos : ℚ × ℚ × ℚ
  glitch : ℚ
  bgColor : ℚ × ℚ × ℚ
  starsPos : ℚ × ℚ × ℚ
  imagesOpacity : ℚ
  imagesPos : List (ℚ × ℚ × ℚ)
  imagesScale : List ℚ
  text1Opacity : ℚ
  text1Pos : ℚ × ℚ × ℚ
  text2Pos : ℚ × ℚ × ℚ
deriving DecidableEq

/-- The `Scene` derivation: every visual parameter as a function of
`scrollMax`, the animated values `top` and `mouse`, and the static image
descriptors (src/src/index.js lines 116-148). -/
def deriveParams (scrollMax top : ℚ) (mouse : ℚ × ℚ) (ds : List ImageDesc) :
    SceneParams where
  spotPos := (mouse.1 / 100, -mouse.2 / 100, 6.5)
  glitch := glitchFactor top
  bgColor := colorRamp scrollMax top
  starsPos := (0, -1 + top / 20, 0)
  imagesOpacity := imageOpacity top
  imagesPos := ds.map fun d =>
    ((-mouse.1 * d.factor) / 50000 + d.x,
     (mouse.2 * d.factor) / 50000 + d.y * 1.15 + ((top * d.factor) / scrollMax) * 2,
     d.z + top / 2000)
  imagesScale := ds.map fun d => d.scale
  text1Opacity := textOpacity top
  text1Pos := (0, -1 + top / 200, 0)
  text2Pos := (0, -19 + ((top * 10) / scrollMax) * 2, 0)

/-- The targets of the two springs `Main` owns:
`useSpring(() => ({ top: 0, mouse: [0, 0] }))` (src/src/index.js line 153). -/
structure SpringTargets where
  top : ℚ
  mouse : ℚ × ℚ
deriving DecidableEq

/-- Initial spring state: `{ top: 0, mouse: [0, 0] }` (line 153). -/
def initialSpring : SpringTargets := { top := 0, mouse := (0, 0) }

/-- The scroll handler: `e => set({ top: e.target.scrollTop })` (line 158). -/
def onScroll (st : SpringTargets) (scrollTop : ℚ) : SpringTargets :=
  { st with top := scrollTop }

/-- The pointer-move handler:
`set({ mouse: [x - window.innerWidth / 2, y - window.innerHeight / 2] })`
(src/src/index.js line 155). -/
def onMouseMove (st : SpringTargets) (x y innerWidth innerHeight : ℚ) :
    SpringTargets :=
  { st with mouse := (x - innerWidth / 2, y - innerHeight / 2) }

/-- The offscreen bitmap the `Text` component draws (src/src/index.js lines
42-50): the string (an opaque token), the font size baked into the font
string, the fill color (an opaque token), and the `fillText` position. -/
structure CanvasBitmap where
  text : ℕ
  fontPx : ℚ
  fillColor : ℕ
  fillPos : ℚ × ℚ
deriving DecidableEq

/-- Drawing the bitmap: `fillText(children, 1024, 1024 - 410 / 2)` with
`font = bold fontSizePx ...` and `fillStyle = color` (lines 45-49). -/
def makeCanvas (children : ℕ) (color : ℕ) (fontSize : ℚ) : CanvasBitmap :=
  { text := children, fontPx := fontSize, fillColor := color
    fillPos := (1024, 1024 - 410 / 2) }

/-- The memo cell of `Text`: the dependency key `[children, size.width,
size.height]` and the cached canvas (src/src/index.js lines 40-53). -/
structure TextMemo where
  deps : ℕ × ℚ × ℚ
  canvas : CanvasBitmap
deriving DecidableEq

/-- One render of `Text`'s `useMemo`: the canvas is rebuilt only when the
dependency key `(children, size.width, size.height)` differs from the cached
one; `color` and `fontSize` are read by the builder but are not
dependencies (src/src/index.js lines 40-53). -/
def textCanvasMemo (children : ℕ) (w h : ℚ) (color : ℕ) (fontSize : ℚ) :
    Option TextMemo → TextMemo
  | none => { deps := (children, w, h), canvas := makeCanvas children color fontSize }
  | some m =>
      if m.deps = (children, w, h) then m
      else { deps := (children, w, h), canvas := makeCanvas children color fontSize }

/-- One frame of the `Stars` render callback advances the accumulator:
`theta += 0.01` (src/src/index.js line 80). -/
def starsStep (theta : ℚ) : ℚ := theta + 0.01

/-- The accumulator after `n` frames, starting from `let theta = 0` (line 78). -/
def starsThetaAfter : ℕ → ℚ
  | 0 => 0
  | n + 1 => starsStep (starsThetaAfter n)

/-- `THREE.Math.degToRad`: degrees to radians. -/
noncomputable def degToRad (d : ℝ) : ℝ := d * Real.pi / 180

/-- The per-frame rotation value:
`r = 5 * Math.sin(THREE.Math.degToRad(theta))` (src/src/index.js line 80),
where `theta` is the already-incremented accumulator. -/
noncomputable def starsRotation (theta : ℝ) : ℝ := 5 * Real.sin (degToRad theta)

/-- The per-frame scale value: `s = Math.cos(THREE.Math.degToRad(theta * 2))`
(src/src/index.js line 81). -/
noncomputable def starsScale (theta : ℝ) : ℝ := Real.cos (degToRad (theta * 2))

/-- One full frame of the `Stars` callback (src/src/index.js lines 79-84):
the new accumulator, the rotation triple `rotation.set(r, r, r)` and the
scale triple `scale.set(s, s, s)`. -/
noncomputable def starsFrame (theta : ℚ) : ℚ × (ℝ × ℝ × ℝ) × (ℝ × ℝ × ℝ) :=
  let t' := starsStep theta
  (t',
   (starsRotation (t' : ℝ), starsRotation (t' : ℝ), starsRotation (t' : ℝ)),
   (starsScale (t' : ℝ), starsScale (t' : ℝ), starsScale (t' : ℝ)))

/-! ## Interpolation lemmas -/

/-- The linear segment is monotone when the outputs are ordered with the
stops. -/
theorem linInterp_mono (x0 x1 y0 y1 t1 t2 : ℚ) (hx : x0 < x1) (hy : y0 ≤ y1)
    (ht : t1 ≤ t2) :
    linInterp x0 x1 y0 y1 t1 ≤ linInterp x0 x1 y0 y1 t2 := by
  unfold linInterp
  have h1 : (t1 - x0) * (y1 - y0) ≤ (t2 - x0) * (y1 - y0) :=
    mul_le_mul_of_nonneg_right (by linarith) (by linarith)
  have h2 : (0 : ℚ) ≤ (x1 - x0)⁻¹ := inv_nonneg.mpr (by linarith)
  rw [div_eq_mul_inv, div_eq_mul_inv]
  have := mul_le_mul_of_nonneg_right h1 h2
  linarith

/-- The linear segment is antitone when the outputs are ordered against the
stops. -/
theorem linInterp_anti (x0 x1 y0 y1 t1 t2 : ℚ) (hx : x0 < x1) (hy : y1 ≤ y0)
    (ht : t1 ≤ t2) :
    linInterp x0 x1 y0 y1 t2 ≤ linInterp x0 x1 y0 y1 t1 := by
  unfold linInterp
  have h1 : (t2 - x0) * (y1 - y0) ≤ (t1 - x0) * (y1 - y0) :=
    mul_le_mul_of_nonpos_right (by linarith) (by linarith)
  have h2 : (0 : ℚ) ≤ (x1 - x0)⁻¹ := inv_nonneg.mpr (by linarith)
  rw [div_eq_mul_inv, div_eq_mul_inv]
  have := mul_le_mul_of_nonneg_right h1 h2
  linarith

/-- Below the first stop the four-stop interpolation clamps to the first
output. -/
theorem interp4_left (x0 x1 x2 x3 y0 y1 y2 y3 t : ℚ) (ht : t ≤ x0) :
    interp4 x0 x1 x2 x3 y0 y1 y2 y3 t = y0 := by
  unfold interp4
  rw [if_pos ht]

/-- At or above the last stop the four-stop interpolation clamps to the last
output. -/
theorem interp4_right (x0 x1 x2 x3 y0 y1 y2 y3 t : ℚ) (h01 : x0 < x1)
    (h12 : x1 < x2) (h23 : x2 < x3) (ht : x3 ≤ t) :
    interp4 x0 x1 x2 x3 y0 y1 y2 y3 t = y3 := by
  unfold interp4
  rw [if_neg (by linarith), if_neg (by linarith), if_neg (by linarith)]
  by_cases h : t ≤ x3
  · have heq : t = x3 := le_antisymm h ht
    rw [if_pos h, heq]
    unfold linInterp
    have hne : x3 - x2 ≠ 0 := by intro hc; rw [sub_eq_zero] at hc; linarith
    field_simp
  · rw [if_neg h]

/-- On the first segment the four-stop interpolation is the linear segment
between the first two stops. -/
theorem interp4_seg1 (x0 x1 x2 x3 y0 y1 y2 y3 t : ℚ) (_h01 : x0 < x1)
    (ht0 : x0 ≤ t) (ht1 : t ≤ x1) :
    interp4 x0 x1 x2 x3 y0 y1 y2 y3 t = linInterp x0 x1 y0 y1 t := by
  unfold interp4
  by_cases h : t ≤ x0
  · have heq : t = x0 := le_antisymm h ht0
    rw [if_pos h, heq]
    simp [linInterp]
  · rw [if_neg h, if_pos ht1]

/-- On the second segment the four-stop interpolation is the linear segment
between the middle stops. -/
theorem interp4_seg2 (x0 x1 x2 x3 y0 y1 y2 y3 t : ℚ) (h01 : x0 < x1)
    (h12 : x1 < x2) (ht1 : x1 ≤ t) (ht2 : t ≤ x2) :
    interp4 x0 x1 x2 x3 y0 y1 y2 y3 t = linInterp x1 x2 y1 y2 t := by
  unfold interp4
  rw [if_neg (by linarith : ¬t ≤ x0)]
  by_cases h : t ≤ x1
  · have heq : t = x1 := le_antisymm h ht1
    rw [if_pos h, heq]
    unfold linInterp
    have h1 : x1 - x0 ≠ 0 := by intro hc; rw [sub_eq_zero] at hc; linarith
    have h2 : x2 - x1 ≠ 0 := by intro hc; rw [sub_eq_zero] at hc; linarith
    field_simp
  · rw [if_neg h, if_pos ht2]

/-- On the third segment the four-stop interpolation is the linear segment
between the last two stops. -/
theorem interp4_seg3 (x0 x1 x2 x3 y0 y1 y2 y3 t : ℚ) (h01 : x0 < x1)
    (h12 : x1 < x2) (h23 : x2 < x3) (ht2 : x2 ≤ t) (ht3 : t ≤ x3) :
    interp4 x0 x1 x2 x3 y0 y1 y2 y3 t = linInterp x2 x3 y2 y3 t := by
  unfold interp4
  rw [if_neg (by linarith : ¬t ≤ x0), if_neg (by linarith : ¬t ≤ x1)]
  by_cases h : t ≤ x2
  · have heq : t = x2 := le_antisymm h ht2
    rw [if_pos h, heq]
    unfold linInterp
    have h1 : x2 - x1 ≠ 0 := by intro hc; rw [sub_eq_zero] at hc; linarith
    have h2 : x3 - x2 ≠ 0 := by intro hc; rw [sub_eq_zero] at hc; linarith
    field_simp
  · rw [if_neg h, if_pos ht3]

/-- Monotonicity of the four-stop interpolation on the first segment. -/
theorem interp4_mono1 (x0 x1 x2 x3 y0 y1 y2 y3 t1 t2 : ℚ) (h01 : x0 < x1)
    (hy : y0 ≤ y1) (h0 : x0 ≤ t1) (ht : t1 ≤ t2) (h1 : t2 ≤ x1) :
    interp4 x0 x1 x2 x3 y0 y1 y2 y3 t1 ≤ interp4 x0 x1 x2 x3 y0 y1 y2 y3 t2 := by
  rw [interp4_seg1 x0 x1 x2 x3 y0 y1 y2 y3 t1 h01 h0 (by linarith),
      interp4_seg1 x0 x1 x2 x3 y0 y1 y2 y3 t2 h01 (by linarith) h1]
  exact linInterp_mono x0 x1 y0 y1 t1 t2 h01 hy ht

/-- Antitonicity of the four-stop interpolation on the first segment. -/
theorem interp4_anti1 (x0 x1 x2 x3 y0 y1 y2 y3 t1 t2 : ℚ) (h01 : x0 < x1)
    (hy : y1 ≤ y0) (h0 : x0 ≤ t1) (ht : t1 ≤ t2) (h1 : t2 ≤ x1) :
    interp4 x0 x1 x2 x3 y0 y1 y2 y3 t2 ≤ interp4 x0 x1 x2 x3 y0 y1 y2 y3 t1 := by
  rw [interp4_seg1 x0 x1 x2 x3 y0 y1 y2 y3 t1 h01 h0 (by linarith),
      interp4_seg1 x0 x1 x2 x3 y0 y1 y2 y3 t2 h01 (by linarith) h1]
  exact linInterp_anti x0 x1 y0 y1 t1 t2 h01 hy ht

/-- Monotonicity of the four-stop interpolation on the second segment. -/
theorem interp4_mono2 (x0 x1 x2 x3 y0 y1 y2 y3 t1 t2 : ℚ) (h01 : x0 < x1)
    (h12 : x1 < x2) (hy : y1 ≤ y2) (h0 : x1 ≤ t1) (ht : t1 ≤ t2) (h1 : t2 ≤ x2) :
    interp4 x0 x1 x2 x3 y0 y1 y2 y3 t1 ≤ interp4 x0 x1 x2 x3 y0 y1 y2 y3 t2 := by
  rw [interp4_seg2 x0 x1 x2 x3 y0 y1 y2 y3 t1 h01 h12 h0 (by linarith),
      interp4_seg2 x0 x1 x2 x3 y0 y1 y2 y3 t2 h01 h12 (by linarith) h1]
  exact linInterp_mono x1 x2 y1 y2 t1 t2 h12 hy ht

/-- Monotonicity of the four-stop interpolation on the third segment. -/
theorem interp4_mono3 (x0 x1 x2 x3 y0 y1 y2 y3 t1 t2 : ℚ) (h01 : x0 < x1)
    (h12 : x1 < x2) (h23 : x2 < x3) (hy : y2 ≤ y3) (h0 : x2 ≤ t1) (ht : t1 ≤ t2)
    (h1 : t2 ≤ x3) :
    interp4 x0 x1 x2 x3 y0 y1 y2 y3 t1 ≤ interp4 x0 x1 x2 x3 y0 y1 y2 y3 t2 := by
  rw [interp4_seg3 x0 x1 x2 x3 y0 y1 y2 y3 t1 h01 h12 h23 h0 (by linarith),
      interp4_seg3 x0 x1 x2 x3 y0 y1 y2 y3 t2 h01 h12 h23 (by linarith) h1]
  exact linInterp_mono x2 x3 y2 y3 t1 t2 h23 hy ht

/-! ## Theorems -/

/-- C1: the glitch pass intensity factor satisfies `top = 0 → 1`,
`top = 150 → 0`, and stays `0` for every `top > 150` (clamped at the ends
of the input range `[0, 150]`). -/
theorem glitch_factor_clamped :
    glitchFactor 0 = 1 ∧ glitchFactor 150 = 0 ∧
    ∀ t : ℚ, 150 < t → glitchFactor t = 0 := by
  refine ⟨by norm_num [glitchFactor, interp2], by norm_num [glitchFactor, interp2], ?_⟩
  intro t ht
  unfold glitchFactor interp2
  rw [if_neg (by linarith), if_pos (by linarith)]

/-- Witness for C1 at the concrete scroll value `top = 300 > 150`. -/
theorem glitch_factor_clamped_witness :
    (150 : ℚ) < 300 ∧ glitchFactor 300 = 0 :=
  ⟨by norm_num, glitch_factor_clamped.2.2 300 (by norm_num)⟩

/-- C4: at scroll value `top = 0` the derived parameters are background
color `#27282F = (39, 40, 47)`, text opacity `1`, image opacity `0`,
for every `scrollMax`. -/
theorem top_zero_params :
    ∀ m : ℚ, colorRamp m 0 = (39, 40, 47) ∧ textOpacity 0 = 1 ∧
      imageOpacity 0 = 0 := by
  intro m
  refine ⟨?_, by norm_num [textOpacity, interp2], by norm_num [imageOpacity, interp2]⟩
  simp [colorRamp, rampR, rampG, rampB, interp4]

/-- C8: for every hover spring factor `f` the image mesh scale is
`[scale * f, scale * f, 1]`; in particular the z component is always `1`. -/
theorem image_scale_z_one :
    ∀ scale f : ℚ, imageScale scale f = (scale * f, scale * f, 1) ∧
      (imageScale scale f).2.2 = 1 :=
  fun _ _ => ⟨rfl, rfl⟩

/-- C5: hover is a boolean toggled by the enter/leave handlers; the spring
target is `1.25` when hovered and `1` when not; at the settled spring value
while hovered the rendered scale is `baseScale * 1.25` on x and y. -/
theorem hover_spring_scale :
    ∀ (b : Bool) (scale : ℚ),
      hover b = true ∧ unhover b = false ∧
      hoverFactorTarget true = 1.25 ∧ hoverFactorTarget false = 1 ∧
      imageScale scale (settledSpring (hoverFactorTarget true)) =
        (scale * 1.25, scale * 1.25, 1) := by
  intro b scale
  refine ⟨rfl, rfl, rfl, rfl, ?_⟩
  simp [imageScale, settledSpring, hoverFactorTarget]

/-- C7: the scroll handler sets the `top` target to the event's scroll
offset and leaves `mouse` alone; the pointer-move handler sets the `mouse`
target to the viewport-centered coordinates and leaves `top` alone. -/
theorem controller_event_targets :
    ∀ (st : SpringTargets) (s x y w h : ℚ),
      (onScroll st s).top = s ∧ (onScroll st s).mouse = st.mouse ∧
      (onMouseMove st x y w h).mouse = (x - w / 2, y - h / 2) ∧
      (onMouseMove st x y w h).top = st.top :=
  fun _ _ _ _ _ _ => ⟨rfl, rfl, rfl, rfl⟩

/-- C10: before any event the two animated values are initialized to
`top = 0` and `mouse = [0, 0]`. -/
theorem initial_spring_values :
    initialSpring.top = 0 ∧ initialSpring.mouse = (0, 0) :=
  ⟨rfl, rfl⟩

/-- C6: the `Scene` derivation is pure: computing the derived visual
parameters twice for the same `(top, mouse)` pair (and the same scroll
range and descriptor list) yields identical output. -/
theorem derive_params_pure :
    ∀ (m top top2 : ℚ) (mouse mouse2 : ℚ × ℚ) (ds : List ImageDesc),
      top = top2 → mouse = mouse2 →
      deriveParams m top mouse ds = deriveParams m top2 mouse2 ds := by
  intro m top top2 mouse mouse2 ds h1 h2
  rw [h1, h2]

/-- Witness for C6 at a concrete input pair. -/
theorem derive_params_pure_witness :
    deriveParams 900 120 (30, -40) [⟨0, 1, 2, 3, 4, 5⟩] =
      deriveParams 900 120 (30, -40) [⟨0, 1, 2, 3, 4, 5⟩] :=
  derive_params_pure 900 120 120 (30, -40) (30, -40) [⟨0, 1, 2, 3, 4, 5⟩] rfl rfl

/-- C9: the text bitmap is rebuilt only when the string or canvas size
changes: with an unchanged dependency key the memo (hence the bitmap) is
returned as-is for any new `color` and `fontSize`; with a changed key the
bitmap is rebuilt; and the draw position is the constant
`(1024, 1024 - 410/2) = (1024, 819)`, independent of `fontSize`. -/
theorem text_canvas_memo_spec :
    ∀ (m : TextMemo) (c : ℕ) (w h : ℚ) (col col2 : ℕ) (fs fs2 : ℚ),
      m.deps = (c, w, h) →
      textCanvasMemo c w h col2 fs2 (some m) = m ∧
      (∀ m2 : TextMemo, m2.deps ≠ (c, w, h) →
        (textCanvasMemo c w h col fs (some m2)).canvas = makeCanvas c col fs) ∧
      (makeCanvas c col fs).fillPos = (1024, 819) := by
  intro m c w h col col2 fs fs2 hm
  refine ⟨?_, ?_, ?_⟩
  · simp [textCanvasMemo, hm]
  · intro m2 hm2
    simp [textCanvasMemo, hm2]
  · norm_num [makeCanvas]

/-- Witness for C9: changing only the color token (1 → 2) and the font size
(410 → 150) after the first render leaves the memoized bitmap unchanged. -/
theorem text_canvas_memo_spec_witness :
    textCanvasMemo 7 800 600 2 150
        (some { deps := (7, 800, 600), canvas := makeCanvas 7 1 410 }) =
      { deps := (7, 800, 600), canvas := makeCanvas 7 1 410 } :=
  (text_canvas_memo_spec { deps := (7, 800, 600), canvas := makeCanvas 7 1 410 }
    7 800 600 1 2 410 150 rfl).1

/-- C3: the background ramp hits `#e8f3f1` at `top = scrollMax`, clamps to
the endpoint colors outside `[0, scrollMax]`, and on each of the three
segments every RGB channel moves monotonically toward the next stop (the
red channel decreases on the first segment, `39 → 36`; every other channel
increases). Holds for every positive `scrollMax`. -/
theorem color_ramp_spec (m : ℚ) (hm : 0 < m) :
    colorRamp m m = (232, 243, 241) ∧
    (∀ t, t ≤ 0 → colorRamp m t = (39, 40, 47)) ∧
    (∀ t, m ≤ t → colorRamp m t = (232, 243, 241)) ∧
    (∀ t1 t2, 0 ≤ t1 → t1 ≤ t2 → t2 ≤ m * 0.25 →
      rampR m t2 ≤ rampR m t1 ∧ rampG m t1 ≤ rampG m t2 ∧
      rampB m t1 ≤ rampB m t2) ∧
    (∀ t1 t2, m * 0.25 ≤ t1 → t1 ≤ t2 → t2 ≤ m * 0.5 →
      rampR m t1 ≤ rampR m t2 ∧ rampG m t1 ≤ rampG m t2 ∧
      rampB m t1 ≤ rampB m t2) ∧
    (∀ t1 t2, m * 0.5 ≤ t1 → t1 ≤ t2 → t2 ≤ m →
      rampR m t1 ≤ rampR m t2 ∧ rampG m t1 ≤ rampG m t2 ∧
      rampB m t1 ≤ rampB m t2) := by
  have h01 : (0 : ℚ) < m * 0.25 := by linarith
  have h12 : m * 0.25 < m * 0.5 := by linarith
  have h23 : m * 0.5 < m := by linarith
  refine ⟨?_, ?_, ?_, ?_, ?_, ?_⟩
  · simp only [colorRamp, rampR, rampG, rampB]
    rw [interp4_right 0 (m * 0.25) (m * 0.5) m 39 36 112 232 m h01 h12 h23 le_rfl,
        interp4_right 0 (m * 0.25) (m * 0.5) m 40 123 193 243 m h01 h12 h23 le_rfl,
        interp4_right 0 (m * 0.25) (m * 0.5) m 47 160 179 241 m h01 h12 h23 le_rfl]
  · intro t ht
    simp only [colorRamp, rampR, rampG, rampB]
    rw [interp4_left 0 (m * 0.25) (m * 0.5) m 39 36 112 232 t ht,
        interp4_left 0 (m * 0.25) (m * 0.5) m 40 123 193 243 t ht,
        interp4_left 0 (m * 0.25) (m * 0.5) m 47 160 179 241 t ht]
  · intro t ht
    simp only [colorRamp, rampR, rampG, rampB]
    rw [interp4_right 0 (m * 0.25) (m * 0.5) m 39 36 112 232 t h01 h12 h23 ht,
        interp4_right 0 (m * 0.25) (m * 0.5) m 40 123 193 243 t h01 h12 h23 ht,
        interp4_right 0 (m * 0.25) (m * 0.5) m 47 160 179 241 t h01 h12 h23 ht]
  · intro t1 t2 ha hb hc
    exact ⟨interp4_anti1 0 (m * 0.25) (m * 0.5) m 39 36 112 232 t1 t2 h01
             (by norm_num) ha hb hc,
           interp4_mono1 0 (m * 0.25) (m * 0.5) m 40 123 193 243 t1 t2 h01
             (by norm_num) ha hb hc,
           interp4_mono1 0 (m * 0.25) (m * 0.5) m 47 160 179 241 t1 t2 h01
             (by norm_num) ha hb hc⟩
  · intro t1 t2 ha hb hc
    exact ⟨interp4_mono2 0 (m * 0.25) (m * 0.5) m 39 36 112 232 t1 t2 h01 h12
             (by norm_num) ha hb hc,
           interp4_mono2 0 (m * 0.25) (m * 0.5) m 40 123 193 243 t1 t2 h01 h12
             (by norm_num) ha hb hc,
           interp4_mono2 0 (m * 0.25) (m * 0.5) m 47 160 179 241 t1 t2 h01 h12
             (by norm_num) ha hb hc⟩
  · intro t1 t2 ha hb hc
    exact ⟨interp4_mono3 0 (m * 0.25) (m * 0.5) m 39 36 112 232 t1 t2 h01 h12 h23
             (by norm_num) ha hb hc,
           interp4_mono3 0 (m * 0.25) (m * 0.5) m 40 123 193 243 t1 t2 h01 h12 h23
             (by norm_num) ha hb hc,
           interp4_mono3 0 (m * 0.25) (m * 0.5) m 47 160 179 241 t1 t2 h01 h12 h23
             (by norm_num) ha hb hc⟩

/-- Witness for C3 at the concrete scroll range `scrollMax = 4`. -/
theorem color_ramp_spec_witness : colorRamp 4 4 = (232, 243, 241) :=
  (color_ramp_spec 4 (by norm_num)).1

/-- C2 counterexample: after the first frame the angle is `0.01`, but the
rotation value the code computes is `5 * sin(degToRad(angle))`, not
`sin(degToRad(angle))`, and the scale is `cos(degToRad(2 * angle))`, not
`cos(2 * angle)`. -/
theorem stars_claim_counterexample :
    starsRotation ((starsThetaAfter 1 : ℚ) : ℝ) ≠
      Real.sin (degToRad ((starsThetaAfter 1 : ℚ) : ℝ)) ∧
    starsScale ((starsThetaAfter 1 : ℚ) : ℝ) ≠
      Real.cos (2 * ((starsThetaAfter 1 : ℚ) : ℝ)) := by
  have hθ : ((starsThetaAfter 1 : ℚ) : ℝ) = 1 / 100 := by
    norm_num [starsThetaAfter, starsStep]
  constructor
  · rw [hθ]
    unfold starsRotation degToRad
    intro hc
    have hs : 0 < Real.sin (1 / 100 * Real.pi / 180) := by
      apply Real.sin_pos_of_pos_of_lt_pi
      · positivity
      · have := Real.pi_pos
        linarith
    linarith
  · rw [hθ]
    unfold starsScale degToRad
    intro hc
    have h2 : (0 : ℝ) ≤ 1 / 100 * 2 * Real.pi / 180 := by positivity
    have h3 : (2 : ℝ) * (1 / 100) ≤ Real.pi := by
      have := Real.pi_gt_three
      linarith
    have h1 : 1 / 100 * 2 * Real.pi / 180 < 2 * (1 / 100) := by
      have := Real.pi_lt_d2
      linarith
    have hlt := Real.cos_lt_cos_of_nonneg_of_le_pi h2 h3 h1
    rw [hc] at hlt
    exact lt_irrefl _ hlt

/-- C2 amended: after `N` frames the angle accumulator equals `0.01 * N`
(monotonically increasing, no wraparound); each frame sets the same value on
all three rotation axes and the same value on all three scale axes, with
rotation `5 * sin(degToRad(angle))` and scale `cos(degToRad(angle * 2))`. -/
theorem stars_frame_amended :
    ∀ n : ℕ,
      starsThetaAfter n = 0.01 * (n : ℚ) ∧
      starsThetaAfter n < starsThetaAfter (n + 1) ∧
      (starsFrame (starsThetaAfter n)).1 = starsThetaAfter (n + 1) ∧
      (starsFrame (starsThetaAfter n)).2.1 =
        (starsRotation ((starsThetaAfter (n + 1) : ℚ) : ℝ),
         starsRotation ((starsThetaAfter (n + 1) : ℚ) : ℝ),
         starsRotation ((starsThetaAfter (n + 1) : ℚ) : ℝ)) ∧
      (starsFrame (starsThetaAfter n)).2.2 =
        (starsScale ((starsThetaAfter (n + 1) : ℚ) : ℝ),
         starsScale ((starsThetaAfter (n + 1) : ℚ) : ℝ),
         starsScale ((starsThetaAfter (n + 1) : ℚ) : ℝ)) ∧
      starsRotation ((starsThetaAfter n : ℚ) : ℝ) =
        5 * Real.sin (degToRad (0.01 * (n : ℝ))) ∧
      starsScale ((starsThetaAfter n : ℚ) : ℝ) =
        Real.cos (degToRad (0.01 * (n : ℝ) * 2)) := by
  have hθ : ∀ n : ℕ, starsThetaAfter n = 0.01 * (n : ℚ) := by
    intro n
    induction n with
    | zero => norm_num [starsThetaAfter]
    | succ k ih =>
        have hstep : starsThetaAfter (k + 1) = starsThetaAfter k + 0.01 := rfl
        rw [hstep, ih]
        push_cast
        ring
  have hcast : ∀ n : ℕ, (((0.01 : ℚ) * (n : ℚ) : ℚ) : ℝ) = 0.01 * (n : ℝ) := by
    intro n
    push_cast
    norm_num
  intro n
  refine ⟨hθ n, ?_, rfl, rfl, rfl, ?_, ?_⟩
  · have hstep : starsThetaAfter (n + 1) = starsThetaAfter n + 0.01 := rfl
    rw [hstep]
    have : (0 : ℚ) < 0.01 := by norm_num
    linarith
  · rw [hθ n]
    unfold starsRotation
    rw [hcast n]
  · rw [hθ n]
    unfold starsScale
    rw [hcast n]

end ThreeDemo
